import Mathlib

/-
Verification of the sensor acquisition + range-evaluation core of the
zen-core-backend farm monitoring dashboard (src/app.py).

Shallow embedding conventions:
- Python floats are modelled as rationals (ℚ); `None` as `Option.none`.
- Python dicts are modelled as association lists `List (String × _)`,
  looked up with `List.lookup` (first match wins, as in dict semantics
  for the literal tables, which have distinct keys).
- Network calls (`requests.get` + `raise_for_status`, `response.json()`)
  and the Python builtin `float` are external collaborators, modelled as
  oracle parameters; an exception raised by them is an `Except.error` /
  `Option.none` result.
- The blanket `try/except` in the source becomes an explicit match on the
  oracle outcome.
-/

namespace ZenCore

/-! ## Module-level configuration tables (src/app.py lines 15-39) -/

/-- The `sensor_pins` table: metric name to Blynk virtual pin. -/
def sensor_pins : List (String × String) :=
  [("temperature", "V0"), ("humidity", "V1")]

/-- The `optimal_conditions` table of the provided variant: plant name to
textual temperature and humidity ranges (strings, not parsed numbers); the
values are the file's exact literals, a garbled encoding of the degree
sign included. -/
def optimal_conditions : List (String × (String × String)) :=
  [("pepper", ("25-30¬∞C", "60-75%")),
   ("groundnut", ("20-28¬∞C", "50-70%")),
   ("tomato", ("22-28¬∞C", "65-80%"))]

/-- The `weather_emojis` table: weather condition text to emoji string.
The values are the file's exact literals: the emoji glyphs survive only in
a garbled (mojibake) encoding, some with a leading U+F8FF private-use
character, which matters to no lookup since only the keys are compared. -/
def weather_emojis : List (String × String) :=
  [("Sunny", "‚òÄÔ∏è"),
   ("Partly cloudy", "‚õÖ"),
   ("Cloudy", "‚òÅÔ∏è"),
   ("Rain", "üåßÔ∏è"),
   ("Thunderstorm", "‚õàÔ∏è"),
   ("Snow", "‚ùÑÔ∏è"),
   ("Clear", "üåô"),
   ("Haze", "üå´Ô∏è"),
   ("Fog", "üåÅ"),
   ("Mist", "üå´Ô∏è")]

/-- The fallback emoji literal used by `weather_emojis.get(condition, ...)`
on line 77, again the file's exact (mojibake) bytes. -/
def default_weather_emoji : String := "üå§Ô∏è"

/-! ## fetch_sensor_data (src/app.py lines 43-54) -/

/-- The body of the per-pin `try` block of `fetch_sensor_data`:
`requests.get(...)` + `raise_for_status()` is the oracle `http`
(returning the response text or an error), and the builtin `float` is the
oracle `parseFloat` (returning `none` when `float(text)` raises).
Any failure is caught by the `except` clause and becomes `none`. -/
def fetchValue (http : String → Except String String)
    (parseFloat : String → Option ℚ) (pin : String) : Option ℚ :=
  match http pin with
  | .error _ => none
  | .ok text =>
    match parseFloat text with
    | some v => some v
    | none => none

/-- `fetch_sensor_data`: loops over `sensor_pins`, storing for each sensor
either the parsed float or `None`. -/
def fetch_sensor_data (http : String → Except String String)
    (parseFloat : String → Option ℚ) : List (String × Option ℚ) :=
  sensor_pins.map (fun sp => (sp.1, fetchValue http parseFloat sp.2))

/-! ## fetch_weather (src/app.py lines 58-84) -/

/-- A parsed JSON value, as Python sees the decoded WeatherAPI response. -/
inductive PyVal where
  | num (q : ℚ)
  | str (s : String)
  | arr (xs : List PyVal)
  | obj (fields : List (String × PyVal))

/-- Python subscripting `v[k]` on a decoded JSON value: raises `KeyError` on a
missing key and `TypeError` on a non-dict. -/
def PyVal.getItem : PyVal → String → Except String PyVal
  | .obj fs, k =>
    match fs.lookup k with
    | some v => .ok v
    | none => .error ("KeyError: " ++ k)
  | _, k => .error ("TypeError: value is not subscriptable by " ++ k)

/-- Python `v.get(k, d)`: returns the default on a missing key, raises only
when `v` is not a dict (no `get` attribute). -/
def PyVal.getWithDefault : PyVal → String → PyVal → Except String PyVal
  | .obj fs, k, d => .ok ((fs.lookup k).getD d)
  | _, _, _ => .error "AttributeError: value has no attribute get"

/-- Python `v[0]` on a decoded JSON value: raises `IndexError` on an empty
list and `TypeError` on a non-list. -/
def PyVal.item0 : PyVal → Except String PyVal
  | .arr (x :: _) => .ok x
  | .arr [] => .error "IndexError: list index out of range"
  | _ => .error "TypeError: value is not indexable"

/-- The fields `fetch_weather` extracts from the decoded response. -/
structure WeatherFields where
  condition : PyVal
  wind_speed : PyVal
  precipitation : PyVal
  humidity : PyVal
  alert : PyVal
  temperature : PyVal

/-- The field-extraction part of the `try` body of `fetch_weather`
(lines 65-75), in source order; any raised `KeyError`/`IndexError`/
`TypeError` propagates as `Except.error` (caught by the caller). -/
def extractWeather (weather_data : PyVal) : Except String WeatherFields := do
  let current ← weather_data.getItem "current"
  let conditionObj ← current.getItem "condition"
  let condition ← conditionObj.getItem "text"
  let wind_speed ← current.getItem "wind_kph"
  let precipitation ← current.getItem "precip_mm"
  let humidity ← current.getItem "humidity"
  let alertsObj ← weather_data.getWithDefault "alerts" (.obj [])
  let alertList ← alertsObj.getWithDefault "alert" (.arr [.obj []])
  let firstAlert ← alertList.item0
  let alert ← firstAlert.getWithDefault "desc" (.str "No alerts.")
  let temperature ← current.getItem "temp_c"
  return ⟨condition, wind_speed, precipitation, humidity, alert, temperature⟩

/-- `weather_emojis.get(condition, <default>)` on line 77: the condition
value is whatever `["text"]` returned. A string key is looked up with the
fallback; a number is hashable but equals no string key, so it also yields
the fallback; a JSON array or object is unhashable, so `dict.get` raises
`TypeError`, which the enclosing `except` catches. -/
def emojiFor (condition : PyVal) : Except String String :=
  match condition with
  | .str s => .ok ((weather_emojis.lookup s).getD default_weather_emoji)
  | .num _ => .ok default_weather_emoji
  | _ => .error "TypeError: unhashable type"

/-- The whole `try` body of `fetch_weather` in evaluation order: the
network/HTTP/JSON stage (`requests.get` + `raise_for_status` +
`response.json()`) is the oracle `resp`, then field extraction, then the
emoji lookup performed while the result dict literal is built (line 77). -/
def weatherPipeline (resp : Except String PyVal) :
    Except String (WeatherFields × String) := do
  let f ← resp >>= extractWeather
  let em ← emojiFor f.condition
  return (f, em)

/-- `fetch_weather`: any exception from the pipeline — transport, HTTP
status, JSON decode, field extraction, or the emoji lookup — reaches the
`except` clause, which returns the one-key dict `{"error": str(e)}`;
otherwise the seven-key result dict is built. -/
def fetch_weather (resp : Except String PyVal) : List (String × PyVal) :=
  match weatherPipeline resp with
  | .error e => [("error", .str e)]
  | .ok (f, em) =>
    [("temperature", f.temperature),
     ("condition", f.condition),
     ("emoji", .str em),
     ("wind_speed", f.wind_speed),
     ("precipitation", f.precipitation),
     ("humidity", f.humidity),
     ("alert", f.alert)]

/-! ## The environment-analysis gate (src/app.py line 264) -/

/-- Python truthiness of a `float | None` value: `None` and `0.0` are falsy. -/
def pyTruthy (v : Option ℚ) : Bool :=
  match v with
  | none => false
  | some q => q != 0

/-- The condition of
`if sensor_data.get("temperature") and sensor_data.get("humidity"):` that
gates the Analyze Environment button (line 264). `dict.get` with one
argument defaults to `None` on a missing key. -/
def analysisOffered (sensor_data : List (String × Option ℚ)) : Bool :=
  pyTruthy ((sensor_data.lookup "temperature").getD none) &&
    pyTruthy ((sensor_data.lookup "humidity").getD none)

/-! ## The Range Evaluator (spec §4.2; not implemented in the provided
variant, which hands the raw readings and textual ranges to the AI prompt in
`analyze_environment_with_gemini`, lines 101-114) -/

/-- Modelled from the spec: a Range is an inclusive interval `[min, max]`
of finite numbers (spec §3); the Range Evaluator itself is absent from the
provided source variant. -/
structure SRange where
  min : ℚ
  max : ℚ
deriving DecidableEq

/-- Modelled from the spec: a Profile maps Metric to Range (spec §3). -/
abbrev Profile := List (String × SRange)

/-- Modelled from the spec: the evaluation result for one Metric (spec §3). -/
inductive Verdict where
  | NoData
  | InRange
  | BelowRange (deficit : ℚ)
  | AboveRange (excess : ℚ)
  | NoRangeDefined
deriving DecidableEq

/-- Modelled from the spec: the per-metric evaluation algorithm of §4.2:
absent reading gives `NoData`; no range for the metric gives
`NoRangeDefined`; otherwise `v < min` gives `BelowRange (min - v)`,
`v > max` gives `AboveRange (v - max)`, and boundary values are `InRange`
(closed interval). -/
def evaluateOne (reading : Option ℚ) (range : Option SRange) : Verdict :=
  match reading with
  | none => .NoData
  | some v =>
    match range with
    | none => .NoRangeDefined
    | some rg =>
      if v < rg.min then .BelowRange (rg.min - v)
      else if v > rg.max then .AboveRange (v - rg.max)
      else .InRange

/-- Modelled from the spec: `evaluate(readings, profile)` produces a Verdict
for every metric present in `readings` (spec §4.2). -/
def evaluate (readings : List (String × Option ℚ)) (profile : Profile) :
    List (String × Verdict) :=
  readings.map (fun mr => (mr.1, evaluateOne mr.2 (profile.lookup mr.1)))

/-- Modelled from the spec: `resolveProfile(plant_key, table, default)`
returns `table[plant_key]` if present, else the default Profile (spec §4.2);
the operation with its default parameter is absent from the provided source
variant, whose selectbox restricts keys to the table. -/
def resolveProfile (plant_key : String) (table : List (String × Profile))
    (defaultProfile : Profile) : Profile :=
  (table.lookup plant_key).getD defaultProfile

/-- Modelled from the spec: load-time Profile validation (spec §4.2, §7):
a Profile containing a malformed Range (`min > max`) is rejected at load
time and never reaches the evaluator. -/
def loadProfile (p : Profile) : Except String Profile :=
  if p.all (fun mr => mr.2.min ≤ mr.2.max) then .ok p
  else .error "ConfigurationError: Range with min > max"

/-- A numeric Profile matching the spec's pepper scenario (§8, Scenario 1),
used to instantiate theorems on concrete data. -/
def pepperNumericProfile : Profile := [("temperature", ⟨25, 30⟩), ("humidity", ⟨60, 75⟩)]

/-- A generic default Profile (spec §3: documented default fallback). -/
def genericProfile : Profile := [("temperature", ⟨15, 35⟩), ("humidity", ⟨40, 90⟩)]

/-! ## Theorems -/

/-- C1: for every present numeric reading `r` and valid range `[lo, hi]`
(`lo ≤ hi`), `evaluate` classifies `r` as `InRange` exactly when
`lo ≤ r ≤ hi`, as `BelowRange` with deficit `lo - r` exactly when `r < lo`,
as `AboveRange` with excess `r - hi` exactly when `r > hi`, and both
boundary values are `InRange` (closed interval, no epsilon tolerance). -/
theorem evaluateOne_classifies (r lo hi : ℚ) (h : lo ≤ hi) :
    (evaluateOne (some r) (some ⟨lo, hi⟩) = .InRange ↔ lo ≤ r ∧ r ≤ hi)
    ∧ (∀ d, evaluateOne (some r) (some ⟨lo, hi⟩) = .BelowRange d ↔ r < lo ∧ d = lo - r)
    ∧ (∀ e, evaluateOne (some r) (some ⟨lo, hi⟩) = .AboveRange e ↔ hi < r ∧ e = r - hi)
    ∧ evaluateOne (some lo) (some ⟨lo, hi⟩) = .InRange
    ∧ evaluateOne (some hi) (some ⟨lo, hi⟩) = .InRange := by
  have e0 : ∀ v : ℚ, evaluateOne (some v) (some ⟨lo, hi⟩) =
      if v < lo then Verdict.BelowRange (lo - v)
      else if v > hi then Verdict.AboveRange (v - hi)
      else Verdict.InRange := fun v => rfl
  refine ⟨?_, ?_, ?_, ?_, ?_⟩
  · rw [e0]; split_ifs with h1 h2
    · exact iff_of_false (by simp) (fun hc => by linarith [hc.1])
    · exact iff_of_false (by simp) (fun hc => by linarith [hc.2])
    · exact iff_of_true rfl ⟨not_lt.mp h1, not_lt.mp h2⟩
  · intro d; rw [e0]; split_ifs with h1 h2
    · simp only [Verdict.BelowRange.injEq]
      exact ⟨fun hd => ⟨h1, hd.symm⟩, fun hd => hd.2.symm⟩
    · exact iff_of_false (by simp) (fun hc => absurd hc.1 h1)
    · exact iff_of_false (by simp) (fun hc => absurd hc.1 h1)
  · intro e; rw [e0]; split_ifs with h1 h2
    · exact iff_of_false (by simp) (fun hc => by linarith [hc.1])
    · simp only [Verdict.AboveRange.injEq]
      exact ⟨fun he => ⟨h2, he.symm⟩, fun he => he.2.symm⟩
    · exact iff_of_false (by simp) (fun hc => absurd hc.1 h2)
  · rw [e0]; split_ifs with h1 h2
    · exact absurd h1 (lt_irrefl lo)
    · exact absurd h (not_le.mpr h2)
    · rfl
  · rw [e0]; split_ifs with h1 h2
    · exact absurd h (not_le.mpr h1)
    · exact absurd h2 (lt_irrefl hi)
    · rfl

/-- C1 witness: reading 27 against the valid range `[25, 30]` is `InRange`. -/
theorem evaluateOne_classifies_witness :
    evaluateOne (some 27) (some ⟨25, 30⟩) = Verdict.InRange :=
  (evaluateOne_classifies 27 25 30 (by norm_num)).1.mpr (by norm_num)

/-- C5: an absent Reading evaluates to `NoData` whatever the range (and hence
whatever the active profile supplies for the metric); absence is reported as
data, never as an exception. -/
theorem evaluateOne_absent_noData (rg : Option SRange) :
    evaluateOne none rg = Verdict.NoData := rfl

/-- C2: profile resolution is a pure total function: a key present in the
table resolves to exactly the table's entry, and an absent key resolves to
the default Profile unchanged; no exception is ever raised. -/
theorem resolveProfile_resolves (table : List (String × Profile))
    (defaultProfile : Profile) (k : String) :
    (∀ p, table.lookup k = some p → resolveProfile k table defaultProfile = p)
    ∧ (table.lookup k = none → resolveProfile k table defaultProfile = defaultProfile) :=
  ⟨fun p hp => by rw [resolveProfile, hp]; rfl,
   fun hn => by rw [resolveProfile, hn]; rfl⟩

/-- C2 witness: a known key resolves to its entry and an unknown key falls
back to the default Profile. -/
theorem resolveProfile_resolves_witness :
    resolveProfile "pepper" [("pepper", pepperNumericProfile)] genericProfile
        = pepperNumericProfile
    ∧ resolveProfile "unknown_plant" [("pepper", pepperNumericProfile)] genericProfile
        = genericProfile :=
  ⟨(resolveProfile_resolves [("pepper", pepperNumericProfile)] genericProfile "pepper").1
      pepperNumericProfile (by decide),
   (resolveProfile_resolves [("pepper", pepperNumericProfile)] genericProfile
      "unknown_plant").2 (by decide)⟩

/-- C6: loading a Profile succeeds (returning it unchanged) exactly when
every Range in it satisfies `min ≤ max`; a Profile containing a malformed
Range (`min > max`) is rejected at load time with a configuration error and
so never reaches per-request evaluation. -/
theorem loadProfile_validates (p : Profile) :
    (loadProfile p = Except.ok p ↔ ∀ mr ∈ p, mr.2.min ≤ mr.2.max)
    ∧ ((∃ mr ∈ p, mr.2.max < mr.2.min) → ∃ e, loadProfile p = Except.error e) := by
  unfold loadProfile
  split_ifs with hv
  · refine ⟨iff_of_true rfl ?_, fun hbad => ?_⟩
    · intro mr hmr
      simpa using List.all_eq_true.mp hv mr hmr
    · obtain ⟨mr, hmem, hlt⟩ := hbad
      have := List.all_eq_true.mp hv mr hmem
      simp only [decide_eq_true_eq] at this
      exact absurd this (not_le.mpr hlt)
  · refine ⟨iff_of_false (by simp) ?_, fun _ => ⟨_, rfl⟩⟩
    intro hall
    exact hv (List.all_eq_true.mpr (fun mr hmr => by simpa using hall mr hmr))

/-- C6 witness: the pepper Profile loads unchanged, and a Profile with a
reversed Range is rejected. -/
theorem loadProfile_validates_witness :
    loadProfile pepperNumericProfile = Except.ok pepperNumericProfile
    ∧ ∃ e, loadProfile [("temperature", ⟨30, 25⟩)] = Except.error e :=
  ⟨(loadProfile_validates pepperNumericProfile).1.mpr (by decide),
   (loadProfile_validates [("temperature", ⟨30, 25⟩)]).2
     ⟨("temperature", ⟨30, 25⟩), by constructor; decide; decide⟩⟩

/-- C3: any failure while acquiring a requested metric — a transport/HTTP
error (`http` returns an error) or a non-numeric payload (`float` raises,
i.e. `parseFloat` returns `none`) — resolves that metric's entry in the
returned mapping to `None`; the blanket `except` means no exception reaches
the caller. -/
theorem fetch_sensor_data_failure_absent
    (http : String → Except String String) (parseFloat : String → Option ℚ)
    (s p : String) (hmem : (s, p) ∈ sensor_pins) :
    (∀ e, http p = Except.error e →
      (fetch_sensor_data http parseFloat).lookup s = some none)
    ∧ (∀ t, http p = Except.ok t → parseFloat t = none →
      (fetch_sensor_data http parseFloat).lookup s = some none) := by
  have hcases : (s = "temperature" ∧ p = "V0") ∨ (s = "humidity" ∧ p = "V1") := by
    simpa [sensor_pins] using hmem
  rcases hcases with ⟨hs, hp⟩ | ⟨hs, hp⟩ <;> subst hs <;> subst hp <;>
    exact ⟨fun e he => by simp [fetch_sensor_data, sensor_pins, List.lookup, fetchValue, he],
           fun t ht hpf => by simp [fetch_sensor_data, sensor_pins, List.lookup, fetchValue, ht, hpf]⟩

/-- A demo transport oracle in which pin V0 is unreachable and every other
pin answers with the text `42`. -/
def httpV0Down : String → Except String String :=
  fun pin => if pin = "V0" then .error "ConnectionError" else .ok "42"

/-- A demo transport oracle in which every pin answers with the text `42`. -/
def httpAllUp : String → Except String String := fun _ => .ok "42"

/-- A demo model of the builtin `float`, accepting only the text `42`. -/
def parse42 : String → Option ℚ := fun t => if t = "42" then some 42 else none

/-- C3 witness: with pin V0 unreachable, the temperature entry is `None`. -/
theorem fetch_sensor_data_failure_absent_witness :
    (fetch_sensor_data httpV0Down parse42).lookup "temperature" = some none :=
  (fetch_sensor_data_failure_absent httpV0Down parse42 "temperature" "V0"
    (by decide)).1 "ConnectionError" rfl

/-- C4: acquisition is isolated per metric: the entry produced for a
requested metric depends only on the transport outcome at that metric's own
pin, so a failure while acquiring another metric leaves it unchanged. -/
theorem fetch_sensor_data_isolated
    (http1 http2 : String → Except String String) (parseFloat : String → Option ℚ)
    (s p : String) (hmem : (s, p) ∈ sensor_pins) (hagree : http1 p = http2 p) :
    (fetch_sensor_data http1 parseFloat).lookup s
      = (fetch_sensor_data http2 parseFloat).lookup s := by
  have hcases : (s = "temperature" ∧ p = "V0") ∨ (s = "humidity" ∧ p = "V1") := by
    simpa [sensor_pins] using hmem
  rcases hcases with ⟨hs, hp⟩ | ⟨hs, hp⟩ <;> subst hs <;> subst hp <;>
    simp [fetch_sensor_data, sensor_pins, List.lookup, fetchValue, hagree]

/-- C4 witness: pin V0 failing does not change the humidity reading, which
still parses to 42. -/
theorem fetch_sensor_data_isolated_witness :
    (fetch_sensor_data httpV0Down parse42).lookup "humidity"
        = (fetch_sensor_data httpAllUp parse42).lookup "humidity"
    ∧ (fetch_sensor_data httpV0Down parse42).lookup "humidity" = some (some 42) :=
  ⟨fetch_sensor_data_isolated httpV0Down httpAllUp parse42 "humidity" "V1"
      (by decide) rfl,
   by decide⟩

/-- C7: each acquisition cycle is total over the request set: the returned
mapping has exactly one entry per requested metric, in request order — no
metric is dropped and none is fabricated; correspondingly `evaluate` emits
verdicts for exactly the metrics of its input Reading set. -/
theorem fetch_sensor_data_total
    (http : String → Except String String) (parseFloat : String → Option ℚ)
    (readings : List (String × Option ℚ)) (profile : Profile) :
    (fetch_sensor_data http parseFloat).map Prod.fst = sensor_pins.map Prod.fst
    ∧ (evaluate readings profile).map Prod.fst = readings.map Prod.fst := by
  refine ⟨rfl, ?_⟩
  simp [evaluate]

/-- C8: the Analyze Environment action is gated on Python truthiness of both
readings, so a legitimately acquired reading of exactly 0.0 disables the
analysis exactly as if that reading were absent (`None`). -/
theorem analysisOffered_truthiness (t h : Option ℚ) :
    (analysisOffered [("temperature", t), ("humidity", h)] = true
        ↔ pyTruthy t = true ∧ pyTruthy h = true)
    ∧ analysisOffered [("temperature", some 0), ("humidity", h)]
        = analysisOffered [("temperature", none), ("humidity", h)]
    ∧ analysisOffered [("temperature", t), ("humidity", some 0)]
        = analysisOffered [("temperature", t), ("humidity", none)] := by
  refine ⟨?_, ?_, ?_⟩
  · simp [analysisOffered, List.lookup]
  · simp [analysisOffered, List.lookup, pyTruthy]
  · simp [analysisOffered, List.lookup, pyTruthy]

/-- C9: every value in the mapping returned by `fetch_sensor_data` is either
`None` or the float parsed from that metric's own successfully fetched
response text; no raw response string or other value ever appears. -/
theorem fetch_sensor_data_values
    (http : String → Except String String) (parseFloat : String → Option ℚ)
    (s : String) (v : Option ℚ) (hmem : (s, v) ∈ fetch_sensor_data http parseFloat) :
    v = none ∨ ∃ p t q, (s, p) ∈ sensor_pins ∧ http p = Except.ok t
      ∧ parseFloat t = some q ∧ v = some q := by
  have hcases : (s = "temperature" ∧ v = fetchValue http parseFloat "V0")
      ∨ (s = "humidity" ∧ v = fetchValue http parseFloat "V1") := by
    simpa [fetch_sensor_data, sensor_pins] using hmem
  rcases hcases with ⟨hs, hv⟩ | ⟨hs, hv⟩ <;> subst hs <;> subst hv
  · rcases h0 : http "V0" with e | t
    · left; simp [fetchValue, h0]
    · rcases hq : parseFloat t with _ | q
      · left; simp [fetchValue, h0, hq]
      · right; exact ⟨"V0", t, q, by decide, h0, hq, by simp [fetchValue, h0, hq]⟩
  · rcases h0 : http "V1" with e | t
    · left; simp [fetchValue, h0]
    · rcases hq : parseFloat t with _ | q
      · left; simp [fetchValue, h0, hq]
      · right; exact ⟨"V1", t, q, by decide, h0, hq, by simp [fetchValue, h0, hq]⟩

/-- C9 witness: with both pins answering `42`, the temperature entry is the
parsed float 42, which the theorem traces back to its fetched payload. -/
theorem fetch_sensor_data_values_witness :
    (some (42 : ℚ)) = none ∨ ∃ p t q, ("temperature", p) ∈ sensor_pins
      ∧ httpAllUp p = Except.ok t ∧ parse42 t = some q
      ∧ (some (42 : ℚ)) = some q :=
  fetch_sensor_data_values httpAllUp parse42 "temperature" (some 42) (by decide)

/-- A demo decoded WeatherAPI response with no `alerts` key, so the default
chain yields the text `No alerts.`. -/
def demoWeatherJson : PyVal :=
  .obj [("current", .obj
    [("condition", .obj [("text", .str "Sunny")]),
     ("wind_kph", .num 10),
     ("precip_mm", .num 0),
     ("humidity", .num 40),
     ("temp_c", .num 30)])]

/-- A decoded response whose fields all extract successfully but whose
condition text is a JSON array — an unhashable key for the emoji
`dict.get` on line 77. -/
def unhashableConditionJson : PyVal :=
  .obj [("current", .obj
    [("condition", .obj [("text", .arr [])]),
     ("wind_kph", .num 10),
     ("precip_mm", .num 0),
     ("humidity", .num 40),
     ("temp_c", .num 30)])]

/-- C10 counterexample: on a response that fetches and parses successfully
(field extraction returns all seven fields, so the fetch/parse stage did
not fail), `fetch_weather` still returns the one-key error dict, because
the emoji `dict.get` raises `TypeError` on the unhashable condition value;
so the error key is not present exactly when the fetch or parse failed,
and a successful fetch/parse need not yield the seven-key dict. -/
theorem fetch_weather_error_despite_ok_parse :
    (Except.ok unhashableConditionJson >>= extractWeather)
        = Except.ok ⟨.arr [], .num 10, .num 0, .num 40,
            .str "No alerts.", .num 30⟩
    ∧ fetch_weather (Except.ok unhashableConditionJson)
        = [("error", PyVal.str "TypeError: unhashable type")] :=
  ⟨rfl, rfl⟩

/-- C10 (amended): `fetch_weather` never raises; its result is the one-key
dict `{"error": msg}` exactly when the pipeline — transport, HTTP status,
JSON decode, field extraction, or the emoji lookup, which raises
`TypeError` when the condition value is an unhashable JSON array or object
— failed, and otherwise has exactly the keys temperature, condition,
emoji, wind_speed, precipitation, humidity and alert, with the emoji
falling back to the default symbol for any condition text missing from the
emoji table. -/
theorem fetch_weather_shape (resp : Except String PyVal) :
    ((∃ e, fetch_weather resp = [("error", PyVal.str e)])
        ↔ ∃ e, weatherPipeline resp = Except.error e)
    ∧ (∀ f em, weatherPipeline resp = Except.ok (f, em) →
        fetch_weather resp =
          [("temperature", f.temperature),
           ("condition", f.condition),
           ("emoji", PyVal.str em),
           ("wind_speed", f.wind_speed),
           ("precipitation", f.precipitation),
           ("humidity", f.humidity),
           ("alert", f.alert)])
    ∧ (∀ s, weather_emojis.lookup s = none →
        emojiFor (PyVal.str s) = Except.ok default_weather_emoji)
    ∧ (∀ xs, emojiFor (PyVal.arr xs) = Except.error "TypeError: unhashable type")
    ∧ (∀ fs, emojiFor (PyVal.obj fs) = Except.error "TypeError: unhashable type") := by
  refine ⟨?_, ?_, fun s hs => by simp [emojiFor, hs], fun xs => rfl, fun fs => rfl⟩
  · rcases hr : weatherPipeline resp with e | ⟨f0, em0⟩
    · exact iff_of_true ⟨e, by simp [fetch_weather, hr]⟩ ⟨e, rfl⟩
    · refine iff_of_false ?_ ?_
      · rintro ⟨e, he⟩
        simp only [fetch_weather, hr] at he
        exact absurd (congrArg List.length he) (by simp)
      · rintro ⟨e, he⟩
        exact Except.noConfusion he
  · intro f em hf
    rcases hr : weatherPipeline resp with e | ⟨f0, em0⟩
    · rw [hr] at hf
      exact Except.noConfusion hf
    · rw [hr] at hf
      simp only [Except.ok.injEq, Prod.mk.injEq] at hf
      obtain ⟨hf1, hf2⟩ := hf
      subst hf1
      subst hf2
      simp [fetch_weather, hr]

/-- C10 witness: on a well-formed response with condition Sunny and no
alerts, the result has exactly the seven keys, the table's (mojibake)
emoji literal for Sunny, and the default alert text. -/
theorem fetch_weather_shape_witness :
    fetch_weather (Except.ok demoWeatherJson)
      = [("temperature", PyVal.num 30),
         ("condition", PyVal.str "Sunny"),
         ("emoji", PyVal.str "‚òÄÔ∏è"),
         ("wind_speed", PyVal.num 10),
         ("precipitation", PyVal.num 0),
         ("humidity", PyVal.num 40),
         ("alert", PyVal.str "No alerts.")] :=
  (fetch_weather_shape (Except.ok demoWeatherJson)).2.1
    ⟨PyVal.str "Sunny", PyVal.num 10, PyVal.num 0, PyVal.num 40,
     PyVal.str "No alerts.", PyVal.num 30⟩ "‚òÄÔ∏è" rfl

end ZenCore
